import Mathlib

/-!
Shallow embedding of the lead-scoring engine and ingestion pipeline of the
lead-intelligence backend (`backend/ai_scorer.py` and `backend/main.py`).

Numeric conventions: Python ints are `Int`/`Nat`; ratings are embedded as
exact rationals `ℚ` (all threshold constants 4.5, 4.0, 3.5 and the factor
0.6 are exactly representable, and for the integer inputs that occur the
float computations of the source agree with exact rational arithmetic).
Python truthiness of an optional field is: present and non-empty for
strings, present and non-zero for numbers.
-/

/-- Raw business record: the dictionary of optional fields a scraped or
API-submitted lead may carry (`name` is the scraped key, `business_name`
the API key). -/
structure LeadData where
  name : Option String := none
  business_name : Option String := none
  phone : Option String := none
  website : Option String := none
  email : Option String := none
  address : Option String := none
  rating : Option ℚ := none
  reviews_count : Option Int := none
  category : Option String := none
  maps_url : Option String := none
  deriving DecidableEq, Repr

/-- Python truthiness of an optional string field: present and non-empty. -/
def truthyStr : Option String → Bool
  | none => false
  | some s => !s.isEmpty

/-- Python truthiness of an optional rational (float) field: present and non-zero. -/
def truthyQ : Option ℚ → Bool
  | none => false
  | some q => decide (q ≠ 0)

/-- Python truthiness of an optional integer field: present and non-zero. -/
def truthyInt : Option Int → Bool
  | none => false
  | some n => decide (n ≠ 0)

namespace LeadScorer

/-- Embeds `LeadScorer._is_valid_phone`: strip non-digits, accept 10 to 15 digits. -/
def is_valid_phone (phone : String) : Bool :=
  let digits := (phone.toList.filter Char.isDigit).length
  decide (10 ≤ digits ∧ digits ≤ 15)

/-- Embeds `LeadScorer._is_valid_website`: http/https scheme and at least one
dot (the prefix test is carried out on the character list). -/
def is_valid_website (website : String) : Bool :=
  ("http://".toList.isPrefixOf website.toList ||
    "https://".toList.isPrefixOf website.toList) &&
    website.toList.contains '.'

/-- Points for the name field in `LeadScorer.calculate_ai_score`. -/
def namePoints (d : LeadData) : Int :=
  if truthyStr d.name then 10 else 0

/-- Points for the phone field (20 valid, 10 present-but-invalid). -/
def phonePoints (d : LeadData) : Int :=
  match d.phone with
  | none => 0
  | some p => if p.isEmpty then 0 else if is_valid_phone p then 20 else 10

/-- Points for the website field (20 valid, 10 present-but-invalid). -/
def websitePoints (d : LeadData) : Int :=
  match d.website with
  | none => 0
  | some w => if w.isEmpty then 0 else if is_valid_website w then 20 else 10

/-- Points for the address field (15 if longer than 20 characters, else 8). -/
def addressPoints (d : LeadData) : Int :=
  match d.address with
  | none => 0
  | some a => if a.isEmpty then 0 else if 20 < a.length then 15 else 8

/-- Points for the rating tier (15 / 12 / 8 / 5, only when rating is truthy). -/
def ratingPoints (d : LeadData) : Int :=
  match d.rating with
  | none => 0
  | some q =>
    if q = 0 then 0
    else if 9/2 ≤ q then 15
    else if 4 ≤ q then 12
    else if 7/2 ≤ q then 8
    else 5

/-- Points for the review-count tier (15 / 12 / 8 / 5, only when truthy). -/
def reviewsPoints (d : LeadData) : Int :=
  match d.reviews_count with
  | none => 0
  | some n =>
    if n = 0 then 0
    else if 100 ≤ n then 15
    else if 50 ≤ n then 12
    else if 20 ≤ n then 8
    else 5

/-- Points for the category field. -/
def categoryPoints (d : LeadData) : Int :=
  if truthyStr d.category then 5 else 0

/-- Embeds `LeadScorer.calculate_ai_score`: additive field scores, clamped to [0, 100]. -/
def calculate_ai_score (d : LeadData) : Int :=
  min (max (namePoints d + phonePoints d + websitePoints d + addressPoints d +
      ratingPoints d + reviewsPoints d + categoryPoints d) 0) 100

/-- Embeds `LeadScorer.assign_priority`: step function on the ai_score. -/
def assign_priority (ai_score : Int) : String :=
  if 80 ≤ ai_score then "A"
  else if 60 ≤ ai_score then "B"
  else "C"

/-- Rounds a rational to one decimal place, as Python round(x, 1) does on
the exact values arising here (all of which are multiples of 1/10, hence
never at a rounding tie). -/
def round1 (q : ℚ) : ℚ := (round (10 * q) : ℤ) / 10

/-- Rating bonus of `LeadScorer.calculate_conversion_probability`. -/
def convRatingBonus (d : LeadData) : ℚ :=
  match d.rating with
  | none => 0
  | some q =>
    if q = 0 then 0
    else if 9/2 ≤ q then 10
    else if 4 ≤ q then 5
    else 0

/-- Review bonus of `LeadScorer.calculate_conversion_probability`. -/
def convReviewsBonus (d : LeadData) : ℚ :=
  match d.reviews_count with
  | none => 0
  | some n =>
    if n = 0 then 0
    else if 100 ≤ n then 10
    else if 50 ≤ n then 5
    else 0

/-- Embeds `LeadScorer.calculate_conversion_probability`: 0.6 weight on the
ai_score plus bonuses, clamped to 100, rounded to one decimal. -/
def calculate_conversion_probability (d : LeadData) (ai_score : Int) : ℚ :=
  let base_probability : ℚ := (ai_score : ℚ) * (6/10)
  let bonus : ℚ := convRatingBonus d + convReviewsBonus d +
    (if truthyStr d.website then 10 else 0) + (if truthyStr d.email then 10 else 0)
  round1 (min (base_probability + bonus) 100)

/-- Embeds the count of filled fields in `LeadScorer.calculate_data_quality_score`
(fixed nine-field checklist, a field counts when truthy). -/
def filledFieldCount (d : LeadData) : ℕ :=
  (if truthyStr d.name then 1 else 0) +
  (if truthyStr d.phone then 1 else 0) +
  (if truthyStr d.email then 1 else 0) +
  (if truthyStr d.website then 1 else 0) +
  (if truthyStr d.address then 1 else 0) +
  (if truthyQ d.rating then 1 else 0) +
  (if truthyInt d.reviews_count then 1 else 0) +
  (if truthyStr d.category then 1 else 0) +
  (if truthyStr d.maps_url then 1 else 0)

/-- Embeds `LeadScorer.calculate_data_quality_score`: filled fields out of
nine, scaled to 0 to 100 and floor-rounded. -/
def calculate_data_quality_score (d : LeadData) : ℕ :=
  filledFieldCount d * 100 / 9

/-- Embeds `LeadScorer.determine_revenue_potential`. -/
def determine_revenue_potential (d : LeadData) (ai_score : Int) : String :=
  if 80 ≤ ai_score then
    if 50 ≤ d.reviews_count.getD 0 then "High ($5000+)" else "Medium ($2000-5000)"
  else if 60 ≤ ai_score then "Medium ($2000-5000)"
  else "Low ($500-2000)"

/-- Embeds `LeadScorer.get_recommended_action`. -/
def get_recommended_action (d : LeadData) (priority : String) : String :=
  if priority = "A" then
    if truthyStr d.phone then "Call immediately - High potential lead"
    else if truthyStr d.email then "Send personalized email within 24 hours"
    else "Research contact info and reach out ASAP"
  else if priority = "B" then
    if truthyStr d.phone || truthyStr d.email then "Follow up within 48 hours"
    else "Add to nurture campaign"
  else "Add to email drip campaign for future engagement"

/-- The dictionary of metrics returned by `LeadScorer.score_lead`. -/
structure ScoreResult where
  ai_score : Int
  priority : String
  conversion_probability : ℚ
  data_quality_score : ℕ
  revenue_potential : String
  recommended_action : String
  deriving DecidableEq, Repr

/-- Embeds `LeadScorer.score_lead` (also the module-level `score_lead`):
computes every metric from the raw record. -/
def score_lead (d : LeadData) : ScoreResult :=
  let ai_score := calculate_ai_score d
  let priority := assign_priority ai_score
  { ai_score := ai_score
    priority := priority
    conversion_probability := calculate_conversion_probability d ai_score
    data_quality_score := calculate_data_quality_score d
    revenue_potential := determine_revenue_potential d ai_score
    recommended_action := get_recommended_action d priority }

end LeadScorer

namespace MainApp

/-- Review-count tier of `main.calculate_ai_score` (business maturity, 30 points;
an absent or falsy count reads as 0). -/
def reviewTierPoints (d : LeadData) : Int :=
  let reviews := d.reviews_count.getD 0
  if 100 < reviews then 30
  else if 50 < reviews then 20
  else if 10 < reviews then 10
  else 0

/-- Digital-presence points of `main.calculate_ai_score` (25 points). -/
def digitalPresencePoints (d : LeadData) : Int :=
  if truthyStr d.website && truthyStr d.email then 25
  else if truthyStr d.website || truthyStr d.email then 15
  else 0

/-- Rating tier of `main.calculate_ai_score` (20 points; an absent or falsy
rating reads as 0). -/
def ratingTierPoints (d : LeadData) : Int :=
  let rating := d.rating.getD 0
  if 9/2 ≤ rating then 20
  else if 4 ≤ rating then 15
  else if 7/2 ≤ rating then 10
  else 0

/-- Contact completeness of `main.calculate_ai_score` (25 points, aggregated additively). -/
def contactPoints (d : LeadData) : Int :=
  (if truthyStr d.phone then 10 else 0) +
  (if truthyStr d.email then 10 else 0) +
  (if truthyStr d.website then 5 else 0)

/-- The ai_score of `main.calculate_ai_score`: sum of the four contributions. -/
def aiScoreValue (d : LeadData) : Int :=
  reviewTierPoints d + digitalPresencePoints d + ratingTierPoints d + contactPoints d

/-- Priority step of `main.calculate_ai_score` (computed inline in the source). -/
def priorityOf (score : Int) : String :=
  if 80 ≤ score then "A"
  else if 60 ≤ score then "B"
  else "C"

/-- Recommended action chosen inline alongside the priority in `main.calculate_ai_score`. -/
def actionOf (score : Int) : String :=
  if 80 ≤ score then "Call within 1 hour - High conversion probability"
  else if 60 ≤ score then "Email today, follow up call tomorrow"
  else "Add to nurture campaign"

/-- Revenue label chosen inline alongside the priority in `main.calculate_ai_score`. -/
def revenueOf (score : Int) : String :=
  if 80 ≤ score then "$10,000 - $50,000 LTV"
  else if 60 ≤ score then "$5,000 - $15,000 LTV"
  else "$1,000 - $5,000 LTV"

/-- Quality score of `main.calculate_ai_score`: weighted presence checklist. -/
def qualityScoreValue (d : LeadData) : Int :=
  (if truthyStr d.business_name then 10 else 0) +
  (if truthyStr d.phone then 25 else 0) +
  (if truthyStr d.email then 25 else 0) +
  (if truthyStr d.website then 20 else 0) +
  (if truthyStr d.address then 10 else 0) +
  (if truthyQ d.rating then 5 else 0) +
  (if truthyInt d.reviews_count then 5 else 0)

/-- The dictionary returned by `main.calculate_ai_score`. -/
structure MainScores where
  ai_score : Int
  priority : String
  conversion_probability : Int
  revenue_potential : String
  recommended_action : String
  data_quality_score : Int
  deriving DecidableEq, Repr

/-- Embeds `main.calculate_ai_score`: the inline scorer used by the direct
lead-creation API (conversion_probability is the score itself). -/
def calculate_ai_score (d : LeadData) : MainScores :=
  let score := aiScoreValue d
  { ai_score := score
    priority := priorityOf score
    conversion_probability := score
    revenue_potential := revenueOf score
    recommended_action := actionOf score
    data_quality_score := qualityScoreValue d }

end MainApp

/-! The ingestion pipeline of `main.scrape_and_create_leads` and the
surrounding endpoints, modelled over an explicit store. The SQLAlchemy
session is created with `autoflush=False` (main.py line 141), so queries
issued during a run see only rows committed before the run: staged
(`db.add`-ed, uncommitted) rows are invisible to the duplicate check until
the single `db.commit()` at the end of the loop. -/

/-- A persisted Lead row, with the columns the pipeline claims concern. -/
structure LeadRow where
  business_name : Option String
  phone : Option String
  email : Option String
  website : Option String
  address : Option String
  rating : Option ℚ
  reviews_count : Option Int
  category : Option String
  maps_url : Option String
  ai_score : Int
  priority : String
  conversion_probability : ℚ
  data_quality_score : Int
  revenue_potential : String
  recommended_action : String
  deriving DecidableEq, Repr

/-- Campaign aggregate counters (nullable columns, read with an `or 0` guard). -/
structure CampaignRow where
  total_leads : Option ℕ := some 0
  new_leads : Option ℕ := some 0
  duplicate_leads : Option ℕ := some 0
  hot_leads : Option ℕ := some 0
  deriving DecidableEq, Repr

/-- Builds the Lead row staged by the batch loop of `scrape_and_create_leads`:
fields copied from the scraped record, metrics from `LeadScorer.score_lead`. -/
def mkScrapedLead (d : LeadData) : LeadRow :=
  let scores := LeadScorer.score_lead d
  { business_name := d.name
    phone := d.phone
    email := d.email
    website := d.website
    address := d.address
    rating := d.rating
    reviews_count := d.reviews_count
    category := d.category
    maps_url := d.maps_url
    ai_score := scores.ai_score
    priority := scores.priority
    conversion_probability := scores.conversion_probability
    data_quality_score := (scores.data_quality_score : Int)
    revenue_potential := scores.revenue_potential
    recommended_action := scores.recommended_action }

/-- The duplicate check `db.query(Lead).filter(Lead.maps_url == maps_url).first()`:
searches the committed rows only (autoflush is off). -/
def hasMapsUrl (committed : List LeadRow) (u : String) : Bool :=
  committed.any (fun r => r.maps_url == some u)

/-- Mutable state of the per-record loop: staged rows, counters and the
sequence of progress-percent writes. -/
structure LoopState where
  pending : List LeadRow
  created : ℕ
  duplicates : ℕ
  trace : List ℕ
  deriving DecidableEq, Repr

/-- One pass of the per-record loop of `scrape_and_create_leads`: skip and
count a record whose truthy maps_url already exists among committed rows,
otherwise score it, stage a Lead and record the progress write
50 + (idx+1)*40/total. -/
def scrapeLoop (committed : List LeadRow) (total : ℕ) :
    List LeadData → ℕ → LoopState → LoopState
  | [], _, st => st
  | r :: rest, idx, st =>
    let isDup := match r.maps_url with
      | some u => !u.isEmpty && hasMapsUrl committed u
      | none => false
    if isDup then
      scrapeLoop committed total rest (idx + 1) { st with duplicates := st.duplicates + 1 }
    else
      scrapeLoop committed total rest (idx + 1)
        { pending := st.pending ++ [mkScrapedLead r]
          created := st.created + 1
          duplicates := st.duplicates
          trace := st.trace ++ [50 + (idx + 1) * 40 / total] }

/-- Outcome of a successful run of `scrape_and_create_leads`. -/
structure RunResult where
  committed : List LeadRow
  campaign : CampaignRow
  newRows : List LeadRow
  leadsFound : ℕ
  created : ℕ
  duplicates : ℕ
  hotCount : ℕ
  progressTrace : List ℕ
  status : String
  deriving Repr

/-- Embeds `main.scrape_and_create_leads` on a fetched batch (the scraper
collaborator already resolved to `scraped`): the status writes 0, 10, 50,
the per-record loop, one commit of the staged rows, the campaign-aggregate
update (hot leads counted over ALL fetched records via `score_lead`), and
the final completed status at progress 100. -/
def scrape_and_create_leads (committed : List LeadRow) (campaign : CampaignRow)
    (scraped : List LeadData) : RunResult :=
  let total := scraped.length
  let st := scrapeLoop committed total scraped 0 ⟨[], 0, 0, []⟩
  let hot := scraped.countP (fun r => (LeadScorer.score_lead r).priority == "A")
  { committed := committed ++ st.pending
    campaign :=
      { total_leads := some (campaign.total_leads.getD 0 + st.created)
        new_leads := some (campaign.new_leads.getD 0 + st.created)
        duplicate_leads := some (campaign.duplicate_leads.getD 0 + st.duplicates)
        hot_leads := some (campaign.hot_leads.getD 0 + hot) }
    newRows := st.pending
    leadsFound := total
    created := st.created
    duplicates := st.duplicates
    hotCount := hot
    progressTrace := [0, 10, 50] ++ st.trace ++ [100]
    status := "completed" }

/-- The in-memory scraping status record served by the status endpoint. -/
structure ScrapeStatusRow where
  status : String
  progress : ℕ
  leads_found : ℕ
  leads_created : ℕ
  duplicates : ℕ
  error : Option String
  deriving DecidableEq, Repr

/-- The response built when no entry exists in `scraping_status` for a campaign. -/
def notStartedStatus : ScrapeStatusRow :=
  { status := "not_started", progress := 0, leads_found := 0, leads_created := 0
    duplicates := 0, error := none }

/-- Embeds `main.get_scrape_status`: 404 when the campaign id is unknown,
otherwise the stored status entry or the not_started default. -/
def get_scrape_status (campaignIds : List ℕ) (scrapingStatus : List (ℕ × ScrapeStatusRow))
    (campaign_id : ℕ) : Except (ℕ × String) ScrapeStatusRow :=
  if campaignIds.contains campaign_id then
    match scrapingStatus.lookup campaign_id with
    | some st => Except.ok st
    | none => Except.ok notStartedStatus
  else Except.error (404, "Campaign not found")

namespace MainApp

/-- Builds the Lead row persisted by the direct creation endpoint: fields
from the request body (whose name key is `business_name`), metrics from
`main.calculate_ai_score`. -/
def mkApiLead (d : LeadData) : LeadRow :=
  let scores := MainApp.calculate_ai_score d
  { business_name := d.business_name
    phone := d.phone
    email := d.email
    website := d.website
    address := d.address
    rating := d.rating
    reviews_count := d.reviews_count
    category := d.category
    maps_url := d.maps_url
    ai_score := scores.ai_score
    priority := scores.priority
    conversion_probability := (scores.conversion_probability : ℚ)
    data_quality_score := scores.data_quality_score
    revenue_potential := scores.revenue_potential
    recommended_action := scores.recommended_action }

/-- Embeds `main.create_lead` (POST /api/leads): reject when a Lead with the
same maps_url exists, otherwise score with the inline scorer and persist. -/
def create_lead (committed : List LeadRow) (d : LeadData) :
    Except (ℕ × String) LeadRow :=
  if committed.any (fun r => r.maps_url == d.maps_url) then
    Except.error (400, "Lead already exists")
  else Except.ok (mkApiLead d)

end MainApp

/-- The ten optional fields of a raw record, for stating completeness
monotonicity. -/
inductive DataField
  | nameF | businessNameF | phoneF | websiteF | emailF
  | addressF | ratingF | reviewsF | categoryF | mapsUrlF
  deriving DecidableEq, Repr

/-- A value to fill a field with (string, rational, or integer). -/
inductive FieldVal
  | s (v : String)
  | q (v : ℚ)
  | n (v : Int)
  deriving DecidableEq, Repr

/-- Fills one field of a record with a value of the matching type (a
type-mismatched fill leaves the record unchanged). -/
def fillField (d : LeadData) : DataField → FieldVal → LeadData
  | .nameF, .s v => { d with name := some v }
  | .businessNameF, .s v => { d with business_name := some v }
  | .phoneF, .s v => { d with phone := some v }
  | .websiteF, .s v => { d with website := some v }
  | .emailF, .s v => { d with email := some v }
  | .addressF, .s v => { d with address := some v }
  | .ratingF, .q v => { d with rating := some v }
  | .reviewsF, .n v => { d with reviews_count := some v }
  | .categoryF, .s v => { d with category := some v }
  | .mapsUrlF, .s v => { d with maps_url := some v }
  | _, _ => d

/-- The named field is absent from the record. -/
def fieldAbsent (d : LeadData) : DataField → Prop
  | .nameF => d.name = none
  | .businessNameF => d.business_name = none
  | .phoneF => d.phone = none
  | .websiteF => d.website = none
  | .emailF => d.email = none
  | .addressF => d.address = none
  | .ratingF => d.rating = none
  | .reviewsF => d.reviews_count = none
  | .categoryF => d.category = none
  | .mapsUrlF => d.maps_url = none

/-- Modelled from the spec sentence of claim C7: the bonus is the sum of a
rating bonus (+10 at rating at least 4.5, else +5 at at least 4.0), a review
bonus (+10 at 100 reviews or more, else +5 at 50 or more), +10 for a website
and +10 for an email. -/
def claim7Bonus (d : LeadData) : ℚ :=
  (match d.rating with
   | some q => if 9/2 ≤ q then 10 else if 4 ≤ q then 5 else 0
   | none => 0) +
  (match d.reviews_count with
   | some n => if 100 ≤ n then 10 else if 50 ≤ n then 5 else 0
   | none => 0) +
  (if truthyStr d.website then 10 else 0) +
  (if truthyStr d.email then 10 else 0)

/-- Record used to separate the two scoring paths: it carries only a name
(the standalone table awards the name 10 points, the inline table 0). -/
def divergingRec : LeadData :=
  { name := some "B Corp"
    business_name := some "B Corp"
    maps_url := some "m" }

/-- Record scoring 85 (priority A) under the standalone scorer, used to
exhibit what a duplicate contributes to the hot-lead counter. -/
def hotRec : LeadData :=
  { name := some "A Corp"
    phone := some "555-1234567"
    website := some "https://a.com"
    address := some "123 Main Street, Springfield, IL"
    reviews_count := some 150
    category := some "Restaurant"
    maps_url := some "u" }

/-- A minimal record carrying only a name and a source identifier. -/
def plainRec : LeadData :=
  { name := some "Same Biz", maps_url := some "u" }

/-- A record with no source identifier at all. -/
def noUrlRec : LeadData :=
  { name := some "No Url Biz" }

/-- A record whose source identifier is present but empty (falsy). -/
def emptyUrlRec : LeadData :=
  { name := some "Empty Url Biz", maps_url := some "" }

/-! Helper lemmas. -/

/-- Bounds of the review-count tier of the inline scorer. -/
lemma reviewTierPoints_bounds (d : LeadData) :
    0 ≤ MainApp.reviewTierPoints d ∧ MainApp.reviewTierPoints d ≤ 30 := by
  dsimp [MainApp.reviewTierPoints]; split_ifs <;> norm_num

/-- Bounds of the digital-presence points of the inline scorer. -/
lemma digitalPresencePoints_bounds (d : LeadData) :
    0 ≤ MainApp.digitalPresencePoints d ∧ MainApp.digitalPresencePoints d ≤ 25 := by
  dsimp [MainApp.digitalPresencePoints]; split_ifs <;> norm_num

/-- Bounds of the rating tier of the inline scorer. -/
lemma ratingTierPoints_bounds (d : LeadData) :
    0 ≤ MainApp.ratingTierPoints d ∧ MainApp.ratingTierPoints d ≤ 20 := by
  dsimp [MainApp.ratingTierPoints]; split_ifs <;> norm_num

/-- Bounds of the contact-completeness points of the inline scorer. -/
lemma contactPoints_bounds (d : LeadData) :
    0 ≤ MainApp.contactPoints d ∧ MainApp.contactPoints d ≤ 25 := by
  dsimp [MainApp.contactPoints]; split_ifs <;> norm_num

/-- The inline ai_score is bounded even though the source applies no clamp. -/
lemma mainAiScore_bounds (d : LeadData) :
    0 ≤ MainApp.aiScoreValue d ∧ MainApp.aiScoreValue d ≤ 100 := by
  have h1 := reviewTierPoints_bounds d
  have h2 := digitalPresencePoints_bounds d
  have h3 := ratingTierPoints_bounds d
  have h4 := contactPoints_bounds d
  dsimp [MainApp.aiScoreValue]
  constructor
  · linarith [h1.1, h2.1, h3.1, h4.1]
  · linarith [h1.2, h2.2, h3.2, h4.2]

/-- The inline weighted quality score is bounded. -/
lemma mainQuality_bounds (d : LeadData) :
    0 ≤ MainApp.qualityScoreValue d ∧ MainApp.qualityScoreValue d ≤ 100 := by
  dsimp [MainApp.qualityScoreValue]; split_ifs <;> norm_num

/-- The standalone scorer clamps its ai_score into [0, 100]. -/
lemma scorerAiScore_bounds (d : LeadData) :
    0 ≤ LeadScorer.calculate_ai_score d ∧ LeadScorer.calculate_ai_score d ≤ 100 := by
  dsimp [LeadScorer.calculate_ai_score]
  exact ⟨le_min (le_max_right _ _) (by norm_num), min_le_right _ _⟩

/-- At most nine fields of the fixed checklist can be filled. -/
lemma filledFieldCount_le_nine (d : LeadData) : LeadScorer.filledFieldCount d ≤ 9 := by
  dsimp [LeadScorer.filledFieldCount]; split_ifs <;> norm_num

/-- The ratio-based data quality score never exceeds 100. -/
lemma scorerQuality_le (d : LeadData) : LeadScorer.calculate_data_quality_score d ≤ 100 :=
  calc LeadScorer.calculate_data_quality_score d
      ≤ 9 * 100 / 9 :=
        Nat.div_le_div_right (Nat.mul_le_mul_right 100 (filledFieldCount_le_nine d))
    _ = 100 := by norm_num

/-! Claim theorems. -/

/-- C1: priority is a step function of ai_score alone, with exact boundaries:
80 and above map to A, 60 to 79 map to B, below 60 maps to C — in both
`LeadScorer.assign_priority` and the inline priority of `main.calculate_ai_score`,
and the priority stored in every ScoreResult is that function of its ai_score. -/
theorem priority_step_function :
    (∀ s : Int,
      (LeadScorer.assign_priority s = "A" ↔ 80 ≤ s) ∧
      (LeadScorer.assign_priority s = "B" ↔ 60 ≤ s ∧ s < 80) ∧
      (LeadScorer.assign_priority s = "C" ↔ s < 60) ∧
      MainApp.priorityOf s = LeadScorer.assign_priority s) ∧
    (∀ d : LeadData,
      (LeadScorer.score_lead d).priority =
        LeadScorer.assign_priority (LeadScorer.score_lead d).ai_score ∧
      (MainApp.calculate_ai_score d).priority =
        MainApp.priorityOf (MainApp.calculate_ai_score d).ai_score) ∧
    LeadScorer.assign_priority 80 = "A" ∧ LeadScorer.assign_priority 79 = "B" ∧
    LeadScorer.assign_priority 60 = "B" ∧ LeadScorer.assign_priority 59 = "C" := by
  refine ⟨fun s => ?_, fun d => ⟨rfl, rfl⟩, by decide, by decide, by decide, by decide⟩
  dsimp [LeadScorer.assign_priority, MainApp.priorityOf]
  split_ifs <;> first
    | (simp_all
       omega)
    | simp_all

/-- C2: for every record, with any subset of fields present and arbitrary
values, the ai_score and the data_quality_score computed on either path lie
in [0, 100]. -/
theorem scores_bounded : ∀ d : LeadData,
    (0 ≤ (LeadScorer.score_lead d).ai_score ∧ (LeadScorer.score_lead d).ai_score ≤ 100) ∧
    (LeadScorer.score_lead d).data_quality_score ≤ 100 ∧
    (0 ≤ (MainApp.calculate_ai_score d).ai_score ∧
      (MainApp.calculate_ai_score d).ai_score ≤ 100) ∧
    (0 ≤ (MainApp.calculate_ai_score d).data_quality_score ∧
      (MainApp.calculate_ai_score d).data_quality_score ≤ 100) := fun d =>
  ⟨scorerAiScore_bounds d, scorerQuality_le d, mainAiScore_bounds d, mainQuality_bounds d⟩

/-- The bonus accumulated by the source equals the bonus as the claim words it. -/
lemma convBonus_eq_claim7Bonus (d : LeadData) :
    LeadScorer.convRatingBonus d + LeadScorer.convReviewsBonus d +
      (if truthyStr d.website then (10 : ℚ) else 0) +
      (if truthyStr d.email then (10 : ℚ) else 0) = claim7Bonus d := by
  have hq : ∀ q : ℚ, (if q = 0 then (0 : ℚ) else if 9/2 ≤ q then 10 else if 4 ≤ q then 5 else 0)
      = (if 9/2 ≤ q then 10 else if 4 ≤ q then 5 else 0) := by
    intro q
    by_cases h : q = 0
    · subst h; norm_num
    · simp [h]
  have hn : ∀ n : ℤ, (if n = 0 then (0 : ℚ) else if 100 ≤ n then 10 else if 50 ≤ n then 5 else 0)
      = (if 100 ≤ n then 10 else if 50 ≤ n then 5 else 0) := by
    intro n
    by_cases h : n = 0
    · subst h; norm_num
    · simp [h]
  dsimp [claim7Bonus, LeadScorer.convRatingBonus, LeadScorer.convReviewsBonus]
  rcases d.rating with _ | q <;> rcases d.reviews_count with _ | n <;> simp [hq, hn]

/-- C7: the standalone conversion probability is min(0.6 * ai_score + bonus, 100)
rounded to one decimal, with the bonus as the claim describes; the ScoreResult
field carries exactly that value for its own ai_score. -/
theorem conversion_probability_formula : ∀ (d : LeadData) (ai : Int),
    LeadScorer.calculate_conversion_probability d ai =
      LeadScorer.round1 (min ((6 : ℚ)/10 * (ai : ℚ) + claim7Bonus d) 100) ∧
    (LeadScorer.score_lead d).conversion_probability =
      LeadScorer.round1 (min ((6 : ℚ)/10 * ((LeadScorer.score_lead d).ai_score : ℚ) +
        claim7Bonus d) 100) := by
  have key : ∀ (d : LeadData) (ai : Int),
      LeadScorer.calculate_conversion_probability d ai =
        LeadScorer.round1 (min ((6 : ℚ)/10 * (ai : ℚ) + claim7Bonus d) 100) := by
    intro d ai
    dsimp [LeadScorer.calculate_conversion_probability]
    rw [← convBonus_eq_claim7Bonus d]
    ring_nf
  exact fun d ai => ⟨key d ai, key d (LeadScorer.calculate_ai_score d)⟩

/-- Monotonicity of a nine-term sum of naturals, term by term. -/
lemma nat_sum9_mono {a b c e f g h i j a' b' c' e' f' g' h' i' j' : ℕ}
    (h1 : a ≤ a') (h2 : b ≤ b') (h3 : c ≤ c') (h4 : e ≤ e') (h5 : f ≤ f')
    (h6 : g ≤ g') (h7 : h ≤ h') (h8 : i ≤ i') (h9 : j ≤ j') :
    a + b + c + e + f + g + h + i + j ≤ a' + b' + c' + e' + f' + g' + h' + i' + j' := by
  omega

/-- Monotonicity of a seven-term sum of integers, term by term. -/
lemma int_sum7_mono {a b c e f g h a' b' c' e' f' g' h' : ℤ}
    (h1 : a ≤ a') (h2 : b ≤ b') (h3 : c ≤ c') (h4 : e ≤ e') (h5 : f ≤ f')
    (h6 : g ≤ g') (h7 : h ≤ h') :
    a + b + c + e + f + g + h ≤ a' + b' + c' + e' + f' + g' + h' := by
  omega

/-- C8: filling any absent field of a record with a value never decreases the
data quality score, neither in the ratio-of-filled-fields variant of the
standalone scorer nor in the weighted checklist of the inline scorer. -/
theorem data_quality_monotone : ∀ (d : LeadData) (f : DataField) (v : FieldVal),
    fieldAbsent d f →
    LeadScorer.calculate_data_quality_score d ≤
      LeadScorer.calculate_data_quality_score (fillField d f v) ∧
    MainApp.qualityScoreValue d ≤ MainApp.qualityScoreValue (fillField d f v) := by
  intro d f v h
  cases f <;> cases v <;> simp only [fieldAbsent] at h <;>
    constructor <;>
      first
        | exact le_refl _
        | (apply Nat.div_le_div_right
           apply Nat.mul_le_mul_right
           dsimp [LeadScorer.filledFieldCount, fillField]
           rw [h]
           apply nat_sum9_mono <;> simp [truthyStr, truthyQ, truthyInt])
        | (dsimp [MainApp.qualityScoreValue, fillField]
           rw [h]
           apply int_sum7_mono <;>
             first
               | exact le_refl _
               | (simp only [truthyStr, truthyQ, truthyInt]
                  split_ifs <;> simp_all))

/-- Witness for C8: filling the phone field of the empty record. -/
theorem data_quality_monotone_witness :
    fieldAbsent ({} : LeadData) DataField.phoneF ∧
    (LeadScorer.calculate_data_quality_score ({} : LeadData) ≤
      LeadScorer.calculate_data_quality_score
        (fillField ({} : LeadData) DataField.phoneF (FieldVal.s "5551234567")) ∧
     MainApp.qualityScoreValue ({} : LeadData) ≤
      MainApp.qualityScoreValue
        (fillField ({} : LeadData) DataField.phoneF (FieldVal.s "5551234567"))) :=
  ⟨rfl, data_quality_monotone {} DataField.phoneF (FieldVal.s "5551234567") rfl⟩

/-- The per-record progress formula is monotone in the record index. -/
lemma progress_formula_mono (total : ℕ) {i j : ℕ} (h : i ≤ j) :
    50 + i * 40 / total ≤ 50 + j * 40 / total := by
  have := Nat.div_le_div_right (c := total) (Nat.mul_le_mul_right 40 h)
  omega

/-- Invariant of the batch loop: its recorded progress writes form a
non-decreasing chain whose every element lies between 50 and the value of
the formula at the final index. -/
lemma scrapeLoop_trace_inv (committed : List LeadRow) (total : ℕ) :
    ∀ (recs : List LeadData) (idx : ℕ) (st : LoopState),
      st.trace.Chain' (· ≤ ·) →
      (∀ x ∈ st.trace, 50 ≤ x ∧ x ≤ 50 + idx * 40 / total) →
      ((scrapeLoop committed total recs idx st).trace.Chain' (· ≤ ·) ∧
        ∀ x ∈ (scrapeLoop committed total recs idx st).trace,
          50 ≤ x ∧ x ≤ 50 + (idx + recs.length) * 40 / total) := by
  intro recs
  induction recs with
  | nil =>
    intro idx st h1 h2
    exact ⟨h1, fun x hx => ⟨(h2 x hx).1, by simpa using (h2 x hx).2⟩⟩
  | cons r rest ih =>
    intro idx st h1 h2
    dsimp [scrapeLoop]
    have hlen : idx + 1 + rest.length = idx + (r :: rest).length := by
      simp; omega
    split
    · have h2' : ∀ x ∈ st.trace, 50 ≤ x ∧ x ≤ 50 + (idx + 1) * 40 / total :=
        fun x hx => ⟨(h2 x hx).1,
          le_trans (h2 x hx).2 (progress_formula_mono total (Nat.le_succ idx))⟩
      have := ih (idx + 1) { st with duplicates := st.duplicates + 1 } h1 h2'
      rw [hlen] at this
      exact this
    · have hbound : ∀ x ∈ st.trace, x ≤ 50 + (idx + 1) * 40 / total :=
        fun x hx => le_trans (h2 x hx).2 (progress_formula_mono total (Nat.le_succ idx))
      have hchain : (st.trace ++ [50 + (idx + 1) * 40 / total]).Chain' (· ≤ ·) := by
        rw [List.chain'_append]
        refine ⟨h1, List.chain'_singleton _, fun x hx y hy => ?_⟩
        simp only [List.head?_cons, Option.mem_def, Option.some.injEq] at hy
        subst hy
        exact hbound x (List.mem_of_mem_getLast? hx)
      have hmem : ∀ x ∈ st.trace ++ [50 + (idx + 1) * 40 / total],
          50 ≤ x ∧ x ≤ 50 + (idx + 1) * 40 / total := by
        intro x hx
        rcases List.mem_append.mp hx with hx | hx
        · exact ⟨(h2 x hx).1, hbound x hx⟩
        · simp only [List.mem_singleton] at hx
          subst hx
          exact ⟨Nat.le_add_right 50 _, le_refl _⟩
      have := ih (idx + 1)
        { pending := st.pending ++ [mkScrapedLead r]
          created := st.created + 1
          duplicates := st.duplicates
          trace := st.trace ++ [50 + (idx + 1) * 40 / total] } hchain hmem
      rw [hlen] at this
      exact this

/-- C9: over a completed ingestion run the sequence of progress writes (the
milestones 0, 10, 50, then the per-record values 50 + (i+1)*40/total) is
monotonically non-decreasing, and the run ends marked completed at exactly
100. -/
theorem progress_trace_monotone :
    ∀ (committed : List LeadRow) (campaign : CampaignRow) (scraped : List LeadData),
    (scrape_and_create_leads committed campaign scraped).progressTrace.Chain' (· ≤ ·) ∧
    (scrape_and_create_leads committed campaign scraped).progressTrace.getLast? = some 100 ∧
    (scrape_and_create_leads committed campaign scraped).status = "completed" := by
  intro committed campaign scraped
  obtain ⟨hchain, hbd⟩ := scrapeLoop_trace_inv committed scraped.length scraped 0
    ⟨[], 0, 0, []⟩ (by simp) (by simp)
  have hdd : (0 + scraped.length) * 40 / scraped.length ≤ 40 := by
    rcases Nat.eq_zero_or_pos scraped.length with h0 | hpos
    · simp [h0]
    · rw [Nat.zero_add, Nat.mul_div_cancel_left 40 hpos]
  refine ⟨?_, ?_, rfl⟩
  · show ([0, 10, 50] ++
      ((scrapeLoop committed scraped.length scraped 0 ⟨[], 0, 0, []⟩).trace ++ [100])).Chain'
        (· ≤ ·)
    rw [List.chain'_append]
    refine ⟨by simp [List.chain'_cons], ?_, ?_⟩
    · rw [List.chain'_append]
      refine ⟨hchain, List.chain'_singleton _, fun x hx y hy => ?_⟩
      simp only [List.head?_cons, Option.mem_def, Option.some.injEq] at hy
      subst hy
      have hx' := (hbd x (List.mem_of_mem_getLast? hx)).2
      omega
    · intro x hx y hy
      have hx50 : 50 = x := by simpa using hx
      subst hx50
      rcases hl : (scrapeLoop committed scraped.length scraped 0 ⟨[], 0, 0, []⟩).trace
        with _ | ⟨a, t'⟩
      · simp only [hl, List.nil_append, List.head?_cons, Option.mem_def,
          Option.some.injEq] at hy
        omega
      · rw [hl] at hy
        simp only [List.cons_append, List.head?_cons, Option.mem_def,
          Option.some.injEq] at hy
        subst hy
        exact (hbd a (by rw [hl]; exact List.mem_cons_self a t')).1
  · show ([0, 10, 50] ++
      ((scrapeLoop committed scraped.length scraped 0 ⟨[], 0, 0, []⟩).trace ++ [100])).getLast?
      = some 100
    rw [← List.append_assoc, List.getLast?_concat]

/-- When no record of the batch carries a truthy source identifier, the loop
creates a Lead for every record and never takes the duplicate branch. -/
lemma scrapeLoop_no_url (committed : List LeadRow) (total : ℕ) :
    ∀ (recs : List LeadData) (idx : ℕ) (st : LoopState),
      (∀ r ∈ recs, truthyStr r.maps_url = false) →
      (scrapeLoop committed total recs idx st).pending =
        st.pending ++ recs.map mkScrapedLead ∧
      (scrapeLoop committed total recs idx st).created = st.created + recs.length ∧
      (scrapeLoop committed total recs idx st).duplicates = st.duplicates := by
  intro recs
  induction recs with
  | nil => intro idx st _; simp [scrapeLoop]
  | cons r rest ih =>
    intro idx st h
    have hr : truthyStr r.maps_url = false := h r (List.mem_cons_self r rest)
    have hdup : (match r.maps_url with
        | some u => !u.isEmpty && hasMapsUrl committed u
        | none => false) = false := by
      cases hmu : r.maps_url with
      | none => rfl
      | some u =>
        rw [hmu] at hr
        simp only [truthyStr, Bool.not_eq_false'] at hr
        simp [hr]
    dsimp [scrapeLoop]
    rw [hdup]
    simp only [Bool.false_eq_true, if_false]
    obtain ⟨hp, hc, hd⟩ := ih (idx + 1)
      { pending := st.pending ++ [mkScrapedLead r]
        created := st.created + 1
        duplicates := st.duplicates
        trace := st.trace ++ [50 + (idx + 1) * 40 / total] }
      (fun x hx => h x (List.mem_cons_of_mem r hx))
    refine ⟨?_, ?_, ?_⟩
    · rw [hp]; simp
    · rw [hc]; simp; omega
    · rw [hd]

/-- C10: a record whose source identifier is missing or empty undergoes no
duplicate check: every such record in a batch is scored and becomes a Lead,
and the duplicates counter never moves. -/
theorem missing_identifier_skips_dedup :
    ∀ (committed : List LeadRow) (campaign : CampaignRow) (records : List LeadData),
      (∀ r ∈ records, truthyStr r.maps_url = false) →
      (scrape_and_create_leads committed campaign records).created = records.length ∧
      (scrape_and_create_leads committed campaign records).duplicates = 0 ∧
      (scrape_and_create_leads committed campaign records).newRows =
        records.map mkScrapedLead := by
  intro committed campaign records h
  obtain ⟨hp, hc, hd⟩ := scrapeLoop_no_url committed records.length records 0 ⟨[], 0, 0, []⟩ h
  exact ⟨by simpa using hc, by simpa using hd, by simpa using hp⟩

/-- Witness for C10: one record without a maps_url and one with an empty
maps_url both become Leads, with no duplicate counted. -/
theorem missing_identifier_skips_dedup_witness :
    (∀ r ∈ [noUrlRec, emptyUrlRec], truthyStr r.maps_url = false) ∧
    (scrape_and_create_leads [] {} [noUrlRec, emptyUrlRec]).created = 2 ∧
    (scrape_and_create_leads [] {} [noUrlRec, emptyUrlRec]).duplicates = 0 :=
  ⟨by decide,
    (missing_identifier_skips_dedup [] {} [noUrlRec, emptyUrlRec] (by decide)).1,
    (missing_identifier_skips_dedup [] {} [noUrlRec, emptyUrlRec] (by decide)).2.1⟩

/-- C3: evaluation at the failing input of the in-batch dedup claim. Two
identical records sharing the source identifier "u", run against an empty
lead table, yield TWO created Leads and a duplicates counter of zero: the
session queries with autoflush off never see the first, still-staged row,
and the unique constraint on maps_url is overridden by a later duplicate
column definition, so the final commit accepts both rows. -/
theorem in_batch_duplicates_not_detected :
    (scrape_and_create_leads [] {} [plainRec, plainRec]).created = 2 ∧
    (scrape_and_create_leads [] {} [plainRec, plainRec]).duplicates = 0 ∧
    ((scrape_and_create_leads [] {} [plainRec, plainRec]).committed.countP
      (fun r => r.maps_url == some "u")) = 2 := by
  decide

/-- Counterexample to C4: a batch consisting of one duplicate record that
scores priority A creates no Lead, yet the campaign hot-lead counter grows
by one — duplicates are NOT excluded from the hot-lead count, because the
source counts priority-A scores over all fetched records. -/
theorem hot_leads_counts_duplicates :
    (scrape_and_create_leads [mkScrapedLead hotRec] {} [hotRec]).created = 0 ∧
    (scrape_and_create_leads [mkScrapedLead hotRec] {} [hotRec]).newRows = [] ∧
    (scrape_and_create_leads [mkScrapedLead hotRec] {} [hotRec]).campaign.hot_leads
      = some 1 := by
  decide

/-- C4 (amended): the campaign aggregates are updated in one end-of-run
write, total_leads and new_leads growing by the created count and
duplicate_leads by the duplicate count, while hot_leads grows by the count
of priority-A scores among ALL fetched records of the batch, duplicates
included. -/
theorem campaign_aggregate_update :
    ∀ (committed : List LeadRow) (campaign : CampaignRow) (records : List LeadData),
    (scrape_and_create_leads committed campaign records).campaign.total_leads =
      some (campaign.total_leads.getD 0 +
        (scrape_and_create_leads committed campaign records).created) ∧
    (scrape_and_create_leads committed campaign records).campaign.new_leads =
      some (campaign.new_leads.getD 0 +
        (scrape_and_create_leads committed campaign records).created) ∧
    (scrape_and_create_leads committed campaign records).campaign.duplicate_leads =
      some (campaign.duplicate_leads.getD 0 +
        (scrape_and_create_leads committed campaign records).duplicates) ∧
    (scrape_and_create_leads committed campaign records).campaign.hot_leads =
      some (campaign.hot_leads.getD 0 +
        records.countP (fun r => (LeadScorer.score_lead r).priority == "A")) :=
  fun _ _ _ => ⟨rfl, rfl, rfl, rfl⟩

/-- Counterexample to C5: the same record scored through the batch pipeline
(standalone scorer: 10) and through the direct creation endpoint (inline
scorer: 0) receives different ai_scores. -/
theorem scoring_paths_disagree :
    ((scrape_and_create_leads [] {} [divergingRec]).newRows.map (fun r => r.ai_score))
      = [10] ∧
    ((MainApp.create_lead [] divergingRec).toOption.map (fun r => r.ai_score))
      = some 0 ∧
    (10 : Int) ≠ 0 := by
  refine ⟨by decide, ?_, by decide⟩
  norm_num [MainApp.create_lead, MainApp.mkApiLead, MainApp.calculate_ai_score,
    MainApp.aiScoreValue, MainApp.reviewTierPoints, MainApp.digitalPresencePoints,
    MainApp.ratingTierPoints, MainApp.contactPoints, divergingRec, truthyStr,
    Except.toOption]

/-- C5 (amended): no single canonical weighting is applied across paths —
batch ingestion scores with `LeadScorer.calculate_ai_score` and the direct
creation endpoint with the inline `MainApp` table, and the two disagree on
some records — although the priority thresholds derived from the ai_score
are identical on both paths. -/
theorem scoring_paths_divergent_weightings :
    (∀ s : Int, MainApp.priorityOf s = LeadScorer.assign_priority s) ∧
    LeadScorer.calculate_ai_score divergingRec ≠ MainApp.aiScoreValue divergingRec := by
  refine ⟨fun _ => rfl, ?_⟩
  have h1 : LeadScorer.calculate_ai_score divergingRec = 10 := by decide
  have h2 : MainApp.aiScoreValue divergingRec = 0 := by
    norm_num [MainApp.aiScoreValue, MainApp.reviewTierPoints,
      MainApp.digitalPresencePoints, MainApp.ratingTierPoints, MainApp.contactPoints,
      divergingRec, truthyStr]
  rw [h1, h2]
  decide

/-- Counterexample to C6: querying ingestion progress for a campaign id that
does not exist raises a 404 error instead of returning a progress value. -/
theorem progress_unknown_campaign_errors :
    get_scrape_status [] [] 1 = Except.error (404, "Campaign not found") := rfl

/-- C6 (amended): for every EXISTING campaign the progress query never
fails — it returns the stored status entry, or the not_started value at
progress 0 when no run was ever launched. -/
theorem progress_existing_campaign_never_fails :
    ∀ (campaignIds : List ℕ) (scrapingStatus : List (ℕ × ScrapeStatusRow)) (cid : ℕ),
      campaignIds.contains cid = true →
      get_scrape_status campaignIds scrapingStatus cid =
        Except.ok ((scrapingStatus.lookup cid).getD notStartedStatus) := by
  intro ids smap cid h
  dsimp [get_scrape_status]
  rw [h]
  cases hlk : smap.lookup cid <;> simp [hlk]

/-- Witness for C6 (amended): campaign 1 exists and no run was launched, so
the status query returns the not_started value. -/
theorem progress_existing_campaign_never_fails_witness :
    (([1] : List ℕ).contains 1 = true) ∧
    get_scrape_status [1] [] 1 =
      Except.ok ((([] : List (ℕ × ScrapeStatusRow)).lookup 1).getD notStartedStatus) :=
  ⟨by decide, progress_existing_campaign_never_fails [1] [] 1 (by decide)⟩
